import Mathlib

/-!
Verification of the llm-knowledge-extractor specification

This file is a shallow embedding, in Lean 4, of the algorithmically relevant
parts of the `llm_knowledge_extractor` Python service, together with theorems
that settle the specification's claims against that embedding.

Embedded components (each definition carries a pointer to its source):

* dynamic Python values and exceptions (`PyVal`, `PyErr`) as needed by the
  code under verification;
* `AzureLLMClient.call_llm` and `_call_openai_with_timeout`
  (`llm_clients/azure/azure_llm_client.py`);
* `NounExtractor.extract_keywords` (`features/text_analyzer/utils/noun_extractor.py`);
* `AnalysisService._calculate_confidence_score` and `analyze_text`
  (`features/text_analyzer/services/analysis_service.py`);
* the batch endpoints `batch_analyze_texts` / `process_batch`
  (`features/text_analyzer/api/v1/text_analyzer_api.py`).

Modelling conventions: Python string/regex operations are modelled with ASCII
semantics (the relevant character classes `[a-zA-Z]`, `\w`, `str.lower`,
`str.isupper` are embedded explicitly over Unicode code points, restricted to
their ASCII behaviour); Python floats are modelled as exact rationals — every
arithmetic value reached by the confidence scorer is a small multiple of 1/20,
where binary floating point and exact arithmetic agree after rounding to two
decimals; fallible Python code is modelled in the `Except` monad; external
collaborators (the remote LLM endpoint, `json.loads`, and the database commit)
are universally quantified function parameters.
-/

/-! ## Dynamic Python values

A model of the Python values that flow through `llm_result` after
`json.loads`: `None`, booleans, integers, strings, lists and dicts.
(JSON floats are not needed by any claim and are omitted.)  Python dicts have
unique keys, so `dict` entries are association lists looked up from the left.
-/

inductive PyVal where
  | none
  | bool (b : Bool)
  | int (n : Int)
  | str (s : String)
  | list (xs : List PyVal)
  | dict (entries : List (String × PyVal))

/-- Python exceptions distinguished by class, as raised by the embedded code. -/
inductive PyErr where
  | valueError (msg : String)
  | typeError (msg : String)
  | attributeError (msg : String)
  | keyError (msg : String)
  | jsonError (msg : String)
  | exception (msg : String)

/-- Model of `str(e)`: the message carried by the exception. -/
def PyErr.message : PyErr → String
  | .valueError m => m
  | .typeError m => m
  | .attributeError m => m
  | .keyError m => m
  | .jsonError m => m
  | .exception m => m

/-- Python truthiness (`bool(v)`) for the modelled values. -/
def PyVal.truthy : PyVal → Bool
  | .none => false
  | .bool b => b
  | .int n => decide (n ≠ 0)
  | .str s => decide (s ≠ "")
  | .list xs => !xs.isEmpty
  | .dict es => !es.isEmpty

/-- Is the value a Python `dict` (i.e. does it have a `.get` method)? -/
def PyVal.isDict : PyVal → Bool
  | .dict _ => true
  | _ => false

/-- Python whitespace for `str.strip` (ASCII model). -/
def isSpaceCh (c : Char) : Bool :=
  c = ' ' || c = '\t' || c = '\n' || c = '\r' || c = '\x0b' || c = '\x0c'

/-- Python `s.strip()`: drop leading and trailing whitespace. -/
def pyStrip (s : String) : String :=
  String.mk (((s.data.dropWhile isSpaceCh).reverse.dropWhile isSpaceCh).reverse)

/-- Python `repr` of a string: quote choice and common escapes.  (Exotic
non-printable escapes are not modelled; no claim depends on them.) -/
def pyStrRepr (s : String) : String :=
  let q : Char := if s.contains '\'' && !(s.contains '"') then '"' else '\''
  let esc := fun (c : Char) =>
    if c = '\\' then "\\\\"
    else if c = q then "\\" ++ String.mk [q]
    else if c = '\n' then "\\n"
    else if c = '\r' then "\\r"
    else if c = '\t' then "\\t"
    else String.mk [c]
  String.mk [q] ++ String.join (s.data.map esc) ++ String.mk [q]

mutual

/-- Python `repr` for the modelled values. -/
def pyRepr : PyVal → String
  | .none => "None"
  | .bool b => if b then "True" else "False"
  | .int n => toString n
  | .str s => pyStrRepr s
  | .list xs => "[" ++ ", ".intercalate (pyReprList xs) ++ "]"
  | .dict es => "\x7b" ++ ", ".intercalate (pyReprEntries es) ++ "\x7d"

/-- Model of `repr` of each element of a Python list. -/
def pyReprList : List PyVal → List String
  | [] => []
  | x :: xs => pyRepr x :: pyReprList xs

/-- Model of `key: value` rendering of each entry of a Python dict. -/
def pyReprEntries : List (String × PyVal) → List String
  | [] => []
  | (k, v) :: es => (pyStrRepr k ++ ": " ++ pyRepr v) :: pyReprEntries es

end

/-- Python `str(v)`: identity on strings, `repr`-like otherwise (exact for the
scalar constructors, which are the ones the scorer's summary check meets). -/
def pyStr : PyVal → String
  | .str s => s
  | v => pyRepr v

/-- Python `len(v)`: defined for sized values, `TypeError` otherwise
(`len` of `None`/`bool`/`int` raises `TypeError` in Python). -/
def pyLen : PyVal → Except PyErr Nat
  | .str s => .ok s.length
  | .list xs => .ok xs.length
  | .dict es => .ok es.length
  | _ => .error (.typeError "object of this type has no len()")

/-- Python `v.get(key, default)`: dict lookup with default; `AttributeError`
when `v` is not a dict (no `.get` attribute). -/
def pyGet (v : PyVal) (key : String) (default : PyVal) : Except PyErr PyVal :=
  match v with
  | .dict es => .ok ((es.lookup key).getD default)
  | _ => .error (.attributeError "object has no attribute get")

/-- Python `v[key]`: dict subscription; `KeyError` for a missing key,
`TypeError` when `v` is not subscriptable by string. -/
def pyIndex (v : PyVal) (key : String) : Except PyErr PyVal :=
  match v with
  | .dict es =>
    match es.lookup key with
    | some x => .ok x
    | Option.none => .error (.keyError key)
  | _ => .error (.typeError "object is not subscriptable")

/-! ## `AzureLLMClient` (llm_clients/azure/azure_llm_client.py)

The remote call itself is a collaborator.  For `call_llm` (lines 153–231) the
per-attempt collaborator `backend : Nat → Except PyErr String` maps the attempt
index to the outcome of `self._call_openai_with_timeout(request_params,
timeout)` followed by `response.choices[0].message.content` — an ordinary
return value or a raised exception.  Request-parameter assembly (`model`,
`max_tokens`, `temperature`, `response_format`) builds a pure dict consumed by
the backend and is absorbed into that collaborator.
-/

/-- Model of `AzureLLMClient._build_messages_openai` (lines 81–95): requires a system
prompt, else raises `ValueError`; builds the role-tagged message list. -/
def build_messages_openai (prompt : String) (system_prompt : Option String) :
    Except PyErr (List (String × String)) :=
  match system_prompt with
  | some sp => .ok [("system", sp), ("user", prompt)]
  | Option.none => .error (.valueError "System prompt is required for Azure OpenAI API calls")

/-- One iteration of the `call_llm` loop body for the `azure_openai` api type
(lines 190–214 and 227): build messages, invoke the backend for this attempt,
and return `content.strip()`. -/
def callAttempt (prompt : String) (system_prompt : Option String)
    (backend : Nat → Except PyErr String) (attempt : Nat) : Except PyErr String :=
  match build_messages_openai prompt system_prompt with
  | .error e => .error e
  | .ok _messages =>
    match backend attempt with
    | .error e => .error e
    | .ok content => .ok (pyStrip content)

/-- The `for attempt in range(max_retries + 1)` loop of `call_llm`
(lines 189–231).  Each iteration's body either returns `content.strip()` or
re-raises the caught exception (`except Exception as e: raise e`); there is no
catch-and-continue path, so a second iteration is never reached.  If the range
were exhausted the function would fall off the end and return Python `None`,
modelled by `.ok Option.none`. -/
def callLLMGo (prompt : String) (system_prompt : Option String)
    (backend : Nat → Except PyErr String) : Nat → Nat → Except PyErr (Option String)
  | _, 0 => .ok Option.none
  | i, _fuel + 1 =>
    match callAttempt prompt system_prompt backend i with
    | .ok content => .ok (some content)
    | .error e => .error e

/-- Model of `AzureLLMClient.call_llm` (lines 153–231), `azure_openai` api type:
runs the retry loop over `max_retries + 1` attempts starting at attempt 0. -/
def call_llm (prompt : String) (system_prompt : Option String)
    (backend : Nat → Except PyErr String) (max_retries : Nat) : Except PyErr (Option String) :=
  callLLMGo prompt system_prompt backend 0 (max_retries + 1)

/-- Modelled from the spec: "a single-attempt call" — exactly one invocation of
the loop body at attempt 0, returning its content or re-raising its
exception.  The refinement claim compares `call_llm` against this. -/
def singleAttemptCall (prompt : String) (system_prompt : Option String)
    (backend : Nat → Except PyErr String) : Except PyErr (Option String) :=
  match callAttempt prompt system_prompt backend 0 with
  | .ok content => .ok (some content)
  | .error e => .error e

/-! ### The timeout wrapper `_call_openai_with_timeout` (lines 109–129)

The wrapped unit of work (`asyncio.to_thread(self.client.chat.completions.create,
...)` run as a task) is modelled as an `LLMTask`: the wall-clock `duration` the
call would take, and its `outcome` (response content or raised exception).
`asyncio.wait_for` semantics: if the task finishes within the deadline its
outcome propagates unchanged; if the deadline elapses first, the wrapper
cancels the in-flight task and raises `LLMTimeoutError`.  The returned `Bool`
records whether the task was cancelled.
-/

structure LLMTask where
  duration : ℚ
  outcome : Except PyErr String

/-- Exceptions escaping the timeout wrapper: the distinct `LLMTimeoutError`
class (azure_llm_client.py lines 26–27), or whatever the underlying backend
call raised. -/
inductive WrapErr where
  | timeout (msg : String)
  | backend (e : PyErr)

/-- Model of `AzureLLMClient._call_openai_with_timeout` (lines 109–129).  Returns the
call's result together with the cancellation flag. -/
def call_openai_with_timeout (task : LLMTask) (timeout : ℚ) :
    Except WrapErr String × Bool :=
  if task.duration ≤ timeout then
    (match task.outcome with
     | .ok r => .ok r
     | .error e => .error (.backend e), false)
  else
    (.error (.timeout ("LLM call timed out after " ++ toString timeout ++ " seconds")), true)

/-- Does the result carry an `LLMTimeoutError`? -/
def isTimeoutErr : Except WrapErr String → Bool
  | .error (.timeout _) => true
  | _ => false

/-! ## `NounExtractor` (features/text_analyzer/utils/noun_extractor.py)

The extractor works on two regexes (`re.split(r'[.!?]+', text)` and
`re.findall(r'\b[a-zA-Z]+\b', s)` / `re.findall(r'\b[a-zA-Z]{3,}\b', s)`),
`str.lower`, `str.isupper`, frequency counting with `collections.Counter`, and
`Counter.most_common`.  All of these are embedded below with ASCII semantics.

A `\b[a-zA-Z]+\b` match is a maximal run of word characters (`\w`) that
consists entirely of ASCII letters: inside a `\w`-run there is no word
boundary, so shorter sub-runs cannot match, and a run containing a digit or
underscore admits no match at all.
-/

/-- Model of `[a-zA-Z]` membership of `A`–`Z` (code points 65–90). -/
def isUpperCh (c : Char) : Bool := decide (65 ≤ c.toNat ∧ c.toNat ≤ 90)

/-- Model of `[a-zA-Z]` membership of `a`–`z` (code points 97–122). -/
def isLowerCh (c : Char) : Bool := decide (97 ≤ c.toNat ∧ c.toNat ≤ 122)

/-- The regex class `[a-zA-Z]`. -/
def isAsciiAlpha (c : Char) : Bool := isUpperCh c || isLowerCh c

/-- The regex class `[0-9]`. -/
def isDigitCh (c : Char) : Bool := decide (48 ≤ c.toNat ∧ c.toNat ≤ 57)

/-- The regex class `\w` (ASCII model): letters, digits, underscore. -/
def isWordCh (c : Char) : Bool := isAsciiAlpha c || isDigitCh c || decide (c = '_')

/-- Model of `str.lower` on one character (ASCII model): map `A`–`Z` to `a`–`z`. -/
def toLowerCh (c : Char) : Char :=
  if 65 ≤ c.toNat ∧ c.toNat ≤ 90 then Char.ofNat (c.toNat + 32) else c

/-- Model of `str.lower` on a character list. -/
def lowerStr (cs : List Char) : List Char := cs.map toLowerCh

/-- The sentence-splitting class `[.!?]`. -/
def isSentenceDelim (c : Char) : Bool := c = '.' || c = '!' || c = '?'

mutual

/-- Model of `re.split(r'[.!?]+', text)`: accumulate the current segment (reversed in
`acc`); a delimiter ends the segment and a maximal delimiter run is consumed
by `splitSentencesSkip`. -/
def splitSentencesGo : List Char → List Char → List (List Char)
  | [], acc => [acc.reverse]
  | c :: cs, acc =>
    if isSentenceDelim c then acc.reverse :: splitSentencesSkip cs
    else splitSentencesGo cs (c :: acc)

/-- Inside a run of `[.!?]` delimiters: skip further delimiters, then start
the next segment. -/
def splitSentencesSkip : List Char → List (List Char)
  | [] => [[]]
  | c :: cs =>
    if isSentenceDelim c then splitSentencesSkip cs
    else splitSentencesGo cs [c]

end

/-- Model of `re.split(r'[.!?]+', text)`. -/
def splitSentences (cs : List Char) : List (List Char) := splitSentencesGo cs []

/-- One step of scanning for maximal `\w`-runs (right fold state: finished
runs, and the run currently being built). -/
def runStep (c : Char) (p : List (List Char) × List Char) : List (List Char) × List Char :=
  if isWordCh c then (p.1, c :: p.2)
  else ((if p.2.isEmpty then p.1 else p.2 :: p.1), [])

/-- Maximal runs of `\w` characters of `cs`, in order. -/
def wordRuns (cs : List Char) : List (List Char) :=
  if (cs.foldr runStep ([], [])).2.isEmpty then (cs.foldr runStep ([], [])).1
  else (cs.foldr runStep ([], [])).2 :: (cs.foldr runStep ([], [])).1

/-- Model of `re.findall(r'\b[a-zA-Z]+\b', s)`: maximal `\w`-runs that are entirely
ASCII letters. -/
def findallAlpha (cs : List Char) : List (List Char) :=
  (wordRuns cs).filter (fun r => r.all isAsciiAlpha)

/-- Model of `re.findall(r'\b[a-zA-Z]{3,}\b', s)`: as `findallAlpha`, with at least
three letters. -/
def findallAlpha3 (cs : List Char) : List (List Char) :=
  (wordRuns cs).filter (fun r => r.all isAsciiAlpha && decide (3 ≤ r.length))

/-- Model of `NounExtractor.__init__`: the stop-word set. -/
def stopWords : List String :=
  ["the", "a", "an", "and", "or", "but", "in", "on", "at", "to", "for",
   "of", "with", "by", "from", "this", "that", "these", "those", "is",
   "are", "was", "were", "be", "been", "have", "has", "had", "do", "does",
   "will", "would", "could", "should", "can", "may", "might", "must"]

/-- The stop words as character lists (tokens are processed as `List Char`). -/
def stopWordsL : List (List Char) := stopWords.map String.data

/-- Model of `NounExtractor.__init__`: articles that often precede nouns. -/
def articles : List String := ["the", "a", "an"]

/-- The articles as character lists. -/
def articlesL : List (List Char) := articles.map String.data

/-- Model of `NounExtractor.__init__`: common verb endings to exclude. -/
def verbEndings : List String := ["ing", "ed", "er", "ly"]

/-- Model of `_looks_like_verb_or_adjective`: adjective endings (local constant). -/
def adjEndings : List String := ["ful", "less", "ous", "ive", "able", "ible", "al"]

/-- Model of `NounExtractor._looks_like_verb_or_adjective` (lines 68–81). -/
def looks_like_verb_or_adjective (w : List Char) : Bool :=
  verbEndings.any (fun e => e.data.isSuffixOf w)
    || adjEndings.any (fun e => e.data.isSuffixOf w)

/-- Was the previous (lowercased) token an article?  (`words[i-1] in
self.articles`; `i > 0` is encoded by the `Option`.) -/
def prevIsArticle : Option (List Char) → Bool
  | some p => decide (p ∈ articlesL)
  | Option.none => false

/-- The token loop of `extract_keywords` over one sentence (lines 40–57):
pairs `(word, original)` from `zip(words, original_words)`, with `prev`
carrying `words[i-1]` (`Option.none` at `i = 0`).  A token shorter than three
letters or in the stop-word set is skipped; otherwise it is kept as a noun
candidate if it is capitalized mid-sentence, or follows an article, or does
not look like a verb/adjective. -/
def collectNouns : Option (List Char) → List (List Char × List Char) → List (List Char)
  | _, [] => []
  | prev, (word, original) :: rest =>
    if word.length < 3 ∨ word ∈ stopWordsL then
      collectNouns (some word) rest
    else if isUpperCh (original.headD ' ') && prev.isSome then
      word :: collectNouns (some word) rest
    else if prevIsArticle prev then
      word :: collectNouns (some word) rest
    else if !looks_like_verb_or_adjective word then
      word :: collectNouns (some word) rest
    else
      collectNouns (some word) rest

/-- Per sentence (lines 37–39): `words = re.findall(r'\b[a-zA-Z]+\b',
sentence.lower())` zipped with `original_words = re.findall(r'\b[a-zA-Z]+\b',
sentence)`.  (`zip` truncates to the shorter list, exactly as in Python.) -/
def sentencePairs (s : List Char) : List (List Char × List Char) :=
  (findallAlpha (lowerStr s)).zip (findallAlpha s)

/-- The `likely_nouns` list accumulated across all sentences (lines 33–57). -/
def likelyNouns (text : String) : List (List Char) :=
  ((splitSentences text.data).map (fun s => collectNouns Option.none (sentencePairs s))).flatten

/-- Insertion order of `collections.Counter(ws)`: distinct elements by first
occurrence. -/
def counterKeys (ws : List (List Char)) : List (List Char) :=
  ws.foldl (fun ks w => if w ∈ ks then ks else ks ++ [w]) []

/-- Model of `collections.Counter(ws).items()`: keys in insertion order with their
multiplicities. -/
def counterItems (ws : List (List Char)) : List (List Char × Nat) :=
  (counterKeys ws).map (fun k => (k, ws.count k))

/-- Model of `Counter.most_common(k)` keys: a stable sort of the items by count
descending (CPython: `sorted(items, key=itemgetter(1), reverse=True)`, which
keeps insertion order among equal counts), truncated to `k`. -/
def mostCommonKeys (k : Nat) (items : List (List Char × Nat)) : List (List Char) :=
  ((items.insertionSort (fun a b => b.2 ≤ a.2)).take k).map Prod.fst

/-- The step-4 fallback token list (lines 60–61): all alphabetic tokens of
length ≥ 3 of the lowercased text, minus stop words. -/
def fallbackWords (text : String) : List (List Char) :=
  (findallAlpha3 (lowerStr text.data)).filter (fun w => w ∉ stopWordsL)

/-- Model of `NounExtractor.extract_keywords` (lines 23–66). -/
def extract_keywords (text : String) (top_k : Nat := 3) : List String :=
  let likely_nouns := likelyNouns text
  let word_counts :=
    if likely_nouns.isEmpty then counterItems (fallbackWords text)
    else counterItems likely_nouns
  (mostCommonKeys top_k word_counts).map String.mk

/-- Modelled from the spec: the step-4 fallback ranking — "fall back to
counting ALL alphabetic tokens length ≥ 3 minus stop words (no noun heuristic
applied)", returning the `top_k` most frequent.  Compared against
`extract_keywords` in claim C4. -/
def fallbackKeywordsSpec (text : String) (top_k : Nat) : List String :=
  (mostCommonKeys top_k (counterItems (fallbackWords text))).map String.mk

/-! ## `AnalysisService._calculate_confidence_score`
(features/text_analyzer/services/analysis_service.py, lines 24–67)

Python floats are modelled as exact rationals; `round(score, 2)` is modelled
as round-half-to-even on exact hundredths.  Every value the scorer can reach
is an exact multiple of 1/20, far from any rounding tie, so binary floating
point, exact arithmetic, and any round-half rule agree there.
-/

/-- Python `min(a, b)` on two numbers: the first argument on ties. -/
def pyMin (a b : ℚ) : ℚ := if a ≤ b then a else b

/-- Python `max(a, b)` on two numbers: the first argument on ties. -/
def pyMax (a b : ℚ) : ℚ := if b ≤ a then a else b

/-- The floor of a rational, by floored integer division of numerator by
denominator (kept explicit so that it evaluates inside the kernel). -/
def ratFloor (q : ℚ) : ℤ := q.num.fdiv q.den

/-- Round-half-to-even to an integer (Python's `round` on a number that is
representable exactly). -/
def roundHalfEven (q : ℚ) : ℤ :=
  let f := ratFloor q
  let frac := q - f
  if frac < 1/2 then f
  else if 1/2 < frac then f + 1
  else if f % 2 = 0 then f else f + 1

/-- Python `round(q, 2)`. -/
def round2 (q : ℚ) : ℚ := (roundHalfEven (q * 100) : ℚ) / 100

/-- The text-length component (lines 39–45): `> 100` chars → 0.25, else
`> 50` → 0.15, else the 0.10 baseline. -/
def lenScore (text : String) : ℚ :=
  if text.length > 100 then 0.25
  else if text.length > 50 then 0.15
  else 0.1

/-- The summary component (lines 47–49): `llm_result.get("summary")` truthy
and `len(str(llm_result["summary"]).strip()) > 10` → 0.25.  `.get` on a
non-dict raises `AttributeError` (caught by the scorer's `except`). -/
def summaryScore (r : PyVal) : Except PyErr ℚ :=
  match pyGet r "summary" .none with
  | .error e => .error e
  | .ok sv =>
    if sv.truthy then
      match pyIndex r "summary" with
      | .error e => .error e
      | .ok v => .ok (if (pyStrip (pyStr v)).length > 10 then 0.25 else 0)
    else .ok 0

/-- The truthy-and-nonempty check of the topics component (lines 51–54):
`topics = llm_result.get("topics", [])`, then `topics and len(topics) > 0`.
`len` of a truthy non-sized value (e.g. a number) raises `TypeError`. -/
def topicsCheck (r : PyVal) : Except PyErr Bool :=
  match pyGet r "topics" (.list []) with
  | .error e => .error e
  | .ok tv =>
    if tv.truthy then
      match pyLen tv with
      | .error e => .error e
      | .ok n => .ok (decide (n > 0))
    else .ok false

/-- The topics component: 0.25 when the check holds. -/
def topicsScore (r : PyVal) : Except PyErr ℚ :=
  match topicsCheck r with
  | .error e => .error e
  | .ok b => .ok (if b then 0.25 else 0)

/-- The keywords component (lines 56–58): `keywords and len(keywords) > 0`
→ 0.25 (`keywords` is a typed `List[str]`, so `len` cannot fault here). -/
def keywordsScore (keywords : List String) : ℚ :=
  if !keywords.isEmpty && decide (keywords.length > 0) then 0.25 else 0

/-- The body of the scorer's `try` block (lines 38–61): sum the four
components, then clamp with `max(0.0, min(1.0, score))`. -/
def scoreBody (text : String) (llm_result : PyVal) (keywords : List String) :
    Except PyErr ℚ :=
  match summaryScore llm_result with
  | .error e => .error e
  | .ok s2 =>
    match topicsScore llm_result with
    | .error e => .error e
    | .ok s3 => .ok (pyMax 0 (pyMin 1 (lenScore text + s2 + s3 + keywordsScore keywords)))

/-- Model of `AnalysisService._calculate_confidence_score` (lines 24–67): the `try`
body's clamped score, or 0.5 on any internal exception; rounded to two
decimal places on return. -/
def calculate_confidence_score (text : String) (llm_result : PyVal)
    (keywords : List String) : ℚ :=
  match scoreBody text llm_result keywords with
  | .ok s => round2 s
  | .error _ => round2 0.5

/-- The summary condition of the scorer, as a boolean on a dict (used to
state monotonicity): the value at `"summary"` is truthy and its string form,
stripped, is longer than 10 characters. -/
def summaryCond (r : PyVal) : Bool :=
  match r with
  | .dict es =>
    let sv := (es.lookup "summary").getD .none
    sv.truthy && decide ((pyStrip (pyStr sv)).length > 10)
  | _ => false

/-! ## `AnalysisService.analyze_text`
(features/text_analyzer/services/analysis_service.py, lines 69–117)

Collaborators are parameters: `llm` is the gateway call
(`azure_llm_client.call_llm(prompt=..., system_prompt=..., response_format="json")`),
`jsonParse` is `json.loads`, and `commit` is the database transaction of
`AnalysisDAO.create_analysis` (assigning the generated `id` and `created_at`).
Effects are tracked explicitly: the result triple also carries the number of
LLM invocations and the list of records handed to the storage collaborator.
-/

/-- Model of `prompts/text_analysis_prompt.py`: `text_analysis_prompt.format(text=text)`.
The `{text}` placeholder is at the end of the template. -/
def text_analysis_prompt_formatted (text : String) : String :=
  "You are an expert text analyst. Analyze the provided text and return your analysis as valid JSON with exactly this structure:\n\n\x7b\n    \"summary\": \"A concise 1-2 sentence summary capturing the main point\",\n    \"title\": \"A descriptive title for the text (or null if no clear title can be determined)\",\n    \"topics\": [\"topic1\", \"topic2\", \"topic3\"],\n    \"sentiment\": \"positive|neutral|negative\",\n    \"keywords\": [\"keyword1\", \"keyword2\", \"keyword3\"]\n\x7d\n\nRequirements:\n- summary: Must be 1-2 sentences maximum, capturing the core message\n- title: Extract existing title or create a descriptive one; use null if text is too fragmented\n- topics: Identify exactly 3 key themes, subjects, or topics discussed\n- sentiment: Classify overall emotional tone as \"positive\", \"neutral\", or \"negative\"\n- keywords: Extract exactly 3 most important/frequent nouns or key terms from the text\n\nReturn ONLY the JSON object with no additional text, explanations, or markdown formatting.\n\nText to analyze:\n"
    ++ text

/-- Model of `prompts/text_analysis_prompt.py`: the system prompt. -/
def analysis_system_prompt : String :=
  "You are a helpful text analysis assistant. Always respond with valid JSON only."

/-- The `TextAnalysisCreate` pydantic schema
(schemas/text_analyzer_schema.py): typed fields after validation. -/
structure TextAnalysisCreateRec where
  original_text : String
  summary : String
  title : Option String
  topics : List String
  sentiment : String
  keywords : List String
  confidence_score : ℚ
deriving DecidableEq

/-- Pydantic v1 coercion to `str`: strings pass through, numbers and bools are
stringified, other values fail validation. -/
def coerceStr : PyVal → Except PyErr String
  | .str s => .ok s
  | .int n => .ok (toString n)
  | .bool b => .ok (if b then "True" else "False")
  | _ => .error (.valueError "str type expected")

/-- Pydantic v1 coercion to `Optional[str]`. -/
def coerceOptStr : PyVal → Except PyErr (Option String)
  | .none => .ok Option.none
  | v =>
    match coerceStr v with
    | .error e => .error e
    | .ok s => .ok (some s)

/-- Pydantic v1 coercion to `List[str]`. -/
def coerceStrList : PyVal → Except PyErr (List String)
  | .list xs => xs.mapM coerceStr
  | _ => .error (.valueError "list of str expected")

/-- Construction of `TextAnalysisCreate` in `analyze_text` (lines 98–105):
missing LLM fields default (`summary` → "No summary available", `title` →
`None`, `topics` → `[]`, `sentiment` → "neutral"), then pydantic validates the
field types.  `.get` on a non-dict `llm_result` raises inside the service's
`try`. -/
def mkTextAnalysisCreate (text : String) (llm_result : PyVal)
    (keywords : List String) (confidence_score : ℚ) :
    Except PyErr TextAnalysisCreateRec :=
  match pyGet llm_result "summary" (.str "No summary available") with
  | .error e => .error e
  | .ok sv =>
    match pyGet llm_result "title" .none with
    | .error e => .error e
    | .ok tv =>
      match pyGet llm_result "topics" (.list []) with
      | .error e => .error e
      | .ok topv =>
        match pyGet llm_result "sentiment" (.str "neutral") with
        | .error e => .error e
        | .ok senv =>
          match coerceStr sv with
          | .error e => .error e
          | .ok summary =>
            match coerceOptStr tv with
            | .error e => .error e
            | .ok title =>
              match coerceStrList topv with
              | .error e => .error e
              | .ok topics =>
                match coerceStr senv with
                | .error e => .error e
                | .ok sentiment =>
                  .ok { original_text := text, summary := summary, title := title,
                        topics := topics, sentiment := sentiment, keywords := keywords,
                        confidence_score := confidence_score }

/-- A persisted `TextAnalysis` row (models/text_analyzer.py): the submitted
fields plus the database-generated `id` and `created_at`. -/
structure TextAnalysisRow where
  id : Nat
  created_at : Nat
  original_text : String
  summary : String
  title : Option String
  topics : List String
  sentiment : String
  keywords : List String
  confidence_score : ℚ
deriving DecidableEq

/-- Model of `AnalysisDAO.create_analysis` (daos/text_analyzer_dao.py, lines 16–31):
copy the validated fields into a row; the `commit` collaborator models
`db.add/commit/refresh`, supplying `id` and `created_at` or failing. -/
def create_analysis (commit : TextAnalysisCreateRec → Except PyErr (Nat × Nat))
    (d : TextAnalysisCreateRec) : Except PyErr TextAnalysisRow :=
  match commit d with
  | .error e => .error e
  | .ok (i, created) =>
    .ok { id := i, created_at := created, original_text := d.original_text,
          summary := d.summary, title := d.title, topics := d.topics,
          sentiment := d.sentiment, keywords := d.keywords,
          confidence_score := d.confidence_score }

/-- The `TextAnalysisResponse` schema (schemas/text_analyzer_schema.py). -/
structure TextAnalysisResponseRec where
  id : Nat
  summary : String
  title : Option String
  topics : List String
  sentiment : String
  keywords : List String
  confidence_score : ℚ
  created_at : Nat
deriving DecidableEq

/-- Model of `TextAnalysisResponse.from_orm`: project the response fields off the row. -/
def from_orm (row : TextAnalysisRow) : TextAnalysisResponseRec :=
  { id := row.id, summary := row.summary, title := row.title, topics := row.topics,
    sentiment := row.sentiment, keywords := row.keywords,
    confidence_score := row.confidence_score, created_at := row.created_at }

/-- Failures escaping `analyze_text`: the empty-text `ValueError` raised
before the `try`, or the generic `Exception("Analysis failed: ...")` the
`except` clause wraps every internal failure in. -/
inductive AnalyzeErr where
  | valueError (msg : String)
  | analysisFailed (msg : String)
deriving DecidableEq

deriving instance DecidableEq for Except

/-- Model of `str(e)` for an `analyze_text` failure. -/
def AnalyzeErr.message : AnalyzeErr → String
  | .valueError m => m
  | .analysisFailed m => m

/-- The `try` block of `analyze_text` (lines 92–113): call the LLM on the
formatted prompt, parse the JSON, extract keywords from the ORIGINAL text,
score, build the record, persist it, and return the read-back response.
Also returns the list of records handed to storage. -/
def analyzeTryBody (llm : String → String → Except PyErr String)
    (jsonParse : String → Except PyErr PyVal)
    (commit : TextAnalysisCreateRec → Except PyErr (Nat × Nat))
    (text : String) :
    Except PyErr TextAnalysisResponseRec × List TextAnalysisCreateRec :=
  match llm (text_analysis_prompt_formatted text) analysis_system_prompt with
  | .error e => (.error e, [])
  | .ok response =>
    match jsonParse response with
    | .error e => (.error e, [])
    | .ok llm_result =>
      let keywords := extract_keywords text 3
      let confidence_score := calculate_confidence_score text llm_result keywords
      match mkTextAnalysisCreate text llm_result keywords confidence_score with
      | .error e => (.error e, [])
      | .ok analysis_data =>
        match create_analysis commit analysis_data with
        | .error e => (.error e, [analysis_data])
        | .ok db_analysis => (.ok (from_orm db_analysis), [analysis_data])

/-- Model of `AnalysisService.analyze_text` (lines 69–117).  The guard
`if not text or not text.strip(): raise ValueError("Text cannot be empty")`
runs before the `try`, so the `ValueError` is not wrapped.  The second
component counts LLM invocations; the third lists records handed to storage. -/
def analyze_text (llm : String → String → Except PyErr String)
    (jsonParse : String → Except PyErr PyVal)
    (commit : TextAnalysisCreateRec → Except PyErr (Nat × Nat))
    (text : String) :
    Except AnalyzeErr TextAnalysisResponseRec × Nat × List TextAnalysisCreateRec :=
  if text = "" ∨ pyStrip text = "" then
    (.error (.valueError "Text cannot be empty"), 0, [])
  else
    match analyzeTryBody llm jsonParse commit text with
    | (.ok resp, stored) => (.ok resp, 1, stored)
    | (.error e, stored) => (.error (.analysisFailed ("Analysis failed: " ++ e.message)), 1, stored)

/-! ## Batch endpoints (features/text_analyzer/api/v1/text_analyzer_api.py)

The module-level `batch_results` dict is modelled as a map from batch id to
an optional entry; `process_batch` is only ever started by
`batch_analyze_texts`, which has just created the entry for its batch id.
-/

/-- One entry of the in-memory `batch_results` store. -/
structure BatchEntry where
  status : String
  successful : List TextAnalysisResponseRec
  failed : List String
  total : Nat
  created_at : Nat
deriving DecidableEq

/-- The module-level `batch_results` dict. -/
abbrev BatchMap := String → Option BatchEntry

/-- In-place mutation of one entry (`batch_results[batch_id][...] = ...`). -/
def updateBatch (m : BatchMap) (batch_id : String) (f : BatchEntry → BatchEntry) : BatchMap :=
  fun k => if k = batch_id then (m k).map f else m k

/-- Model of `batch_analyze_texts` (lines 114–131): create the entry for the new batch
id — `status="processing"`, empty result lists, `total = len(texts)`, and the
submission timestamp — before scheduling `process_batch`. -/
def batch_analyze_texts (batch_id : String) (texts : List String) (now : Nat)
    (m : BatchMap) : BatchMap :=
  fun k =>
    if k = batch_id then
      some { status := "processing", successful := [], failed := [],
             total := texts.length, created_at := now }
    else m k

/-- The per-text loop of `process_batch` (lines 161–177), parametrised by the
outcome of `service.analyze_text`: a blank text records the failure string
`"Empty text"`; a successful analysis is appended to `successful`; any
exception is caught and recorded as a truncated failure string, and the loop
continues with the remaining texts.  After the loop the status is set to
`"completed"`. -/
def processBatchGo (analyze : String → Except AnalyzeErr TextAnalysisResponseRec)
    (batch_id : String) : List String → BatchMap → BatchMap
  | [], m => updateBatch m batch_id (fun e => { e with status := "completed" })
  | text :: rest, m =>
    let m' :=
      if pyStrip text = "" then
        updateBatch m batch_id (fun e => { e with failed := e.failed ++ ["Empty text"] })
      else
        match analyze text with
        | .ok result =>
          updateBatch m batch_id (fun e => { e with successful := e.successful ++ [result] })
        | .error err =>
          updateBatch m batch_id (fun e =>
            { e with failed := e.failed ++ ["Text '" ++ text.take 50 ++ "...': " ++ err.message] })
    processBatchGo analyze batch_id rest m'

/-- Model of `process_batch` (lines 161–177) with the analysis collaborators of
`AnalysisService`. -/
def process_batch (llm : String → String → Except PyErr String)
    (jsonParse : String → Except PyErr PyVal)
    (commit : TextAnalysisCreateRec → Except PyErr (Nat × Nat))
    (batch_id : String) (texts : List String) (m : BatchMap) : BatchMap :=
  processBatchGo (fun t => (analyze_text llm jsonParse commit t).1) batch_id texts m

/-- Submission followed by the background pass: `batch_analyze_texts` creates
the entry, then `process_batch` runs over the submitted texts. -/
def submitAndProcess (llm : String → String → Except PyErr String)
    (jsonParse : String → Except PyErr PyVal)
    (commit : TextAnalysisCreateRec → Except PyErr (Nat × Nat))
    (batch_id : String) (texts : List String) (now : Nat) (m : BatchMap) : BatchMap :=
  process_batch llm jsonParse commit batch_id texts
    (batch_analyze_texts batch_id texts now m)
/-! ### Claims C1 and C2 -/

/-- C1: for every prompt, system prompt and `max_retries`, `call_llm` behaves
exactly like a single-attempt call — it equals `singleAttemptCall`; if the
first attempt raises, that same exception is re-raised; and the result never
depends on the backend's behaviour at any attempt after the first (no further
attempts are performed). -/
theorem call_llm_single_attempt :
    ∀ (prompt : String) (system_prompt : Option String)
      (backend backend' : Nat → Except PyErr String) (max_retries : Nat),
      call_llm prompt system_prompt backend max_retries
          = singleAttemptCall prompt system_prompt backend
      ∧ (∀ e, callAttempt prompt system_prompt backend 0 = .error e →
          call_llm prompt system_prompt backend max_retries = .error e)
      ∧ (backend 0 = backend' 0 →
          call_llm prompt system_prompt backend max_retries
            = call_llm prompt system_prompt backend' max_retries) := by
  intro prompt sp backend backend' mr
  refine ⟨rfl, ?_, ?_⟩
  · intro e he
    simp only [call_llm, callLLMGo, he]
  · intro h0
    simp only [call_llm, callLLMGo, callAttempt, h0]

/-- Witness for C1: a backend that raises on every attempt; `call_llm` with
`max_retries = 3` re-raises that first exception. -/
theorem call_llm_single_attempt_witness :
    callAttempt "p" (some "s") (fun _ => .error (.exception "boom")) 0
        = .error (.exception "boom")
    ∧ call_llm "p" (some "s") (fun _ => .error (.exception "boom")) 3
        = .error (.exception "boom")
    ∧ call_llm "p" (some "s") (fun _ => .error (.exception "boom")) 3
        = call_llm "p" (some "s")
            (fun i => if i = 0 then .error (.exception "boom") else .ok "x") 3 :=
  ⟨rfl,
   (call_llm_single_attempt "p" (some "s") (fun _ => .error (.exception "boom"))
      (fun _ => .error (.exception "boom")) 3).2.1 _ rfl,
   (call_llm_single_attempt "p" (some "s") (fun _ => .error (.exception "boom"))
      (fun i => if i = 0 then .error (.exception "boom") else .ok "x") 3).2.2 rfl⟩

/-- C2: if the wall-clock deadline elapses before the backend call completes,
the in-flight task is cancelled and the distinct `LLMTimeoutError` is raised
(never the backend's generic exception kind); if the call completes within the
deadline, its outcome propagates unchanged, nothing is cancelled, and no
`LLMTimeoutError` is raised. -/
theorem timeout_wrapper_distinct :
    ∀ (task : LLMTask) (timeout : ℚ),
      (timeout < task.duration →
        call_openai_with_timeout task timeout
          = (.error (.timeout ("LLM call timed out after " ++ toString timeout ++ " seconds")),
             true)
        ∧ isTimeoutErr (call_openai_with_timeout task timeout).1 = true
        ∧ ∀ e, (call_openai_with_timeout task timeout).1 ≠ .error (.backend e))
      ∧ (task.duration ≤ timeout →
        (call_openai_with_timeout task timeout).1 = Except.mapError WrapErr.backend task.outcome
        ∧ (call_openai_with_timeout task timeout).2 = false
        ∧ isTimeoutErr (call_openai_with_timeout task timeout).1 = false) := by
  intro task timeout
  constructor
  · intro h
    rw [call_openai_with_timeout, if_neg (not_le_of_lt h)]
    exact ⟨rfl, rfl, by intro e; simp⟩
  · intro h
    rw [call_openai_with_timeout, if_pos h]
    cases task.outcome <;> simp [isTimeoutErr, Except.mapError]

/-- Witness for C2: a 130-second call against a 120-second deadline times out
with `LLMTimeoutError`; a 10-second call that raises a backend exception
completes in time and yields no `LLMTimeoutError`. -/
theorem timeout_wrapper_distinct_witness :
    ((120 : ℚ) < (130 : ℚ)
      ∧ isTimeoutErr (call_openai_with_timeout ⟨130, .ok "hi"⟩ 120).1 = true)
    ∧ ((10 : ℚ) ≤ (120 : ℚ)
      ∧ isTimeoutErr (call_openai_with_timeout ⟨10, .error (.exception "x")⟩ 120).1 = false) :=
  ⟨⟨by norm_num,
    ((timeout_wrapper_distinct ⟨130, .ok "hi"⟩ 120).1 (by norm_num)).2.1⟩,
   ⟨by norm_num,
    ((timeout_wrapper_distinct ⟨10, .error (.exception "x")⟩ 120).2 (by norm_num)).2.2⟩⟩


/-! ### Lemmas about the keyword extractor -/

/-- A lowercased character that is still alphabetic is a lowercase letter. -/
theorem isLowerCh_toLowerCh (c : Char) (h : isAsciiAlpha (toLowerCh c) = true) :
    isLowerCh (toLowerCh c) = true := by
  by_cases hc : 65 ≤ c.toNat ∧ c.toNat ≤ 90
  · unfold toLowerCh
    rw [if_pos hc]
    obtain ⟨h1, h2⟩ := hc
    generalize c.toNat = n at h1 h2
    interval_cases n <;> decide
  · unfold toLowerCh at h ⊢
    rw [if_neg hc] at h ⊢
    simp only [isAsciiAlpha, isUpperCh, isLowerCh, Bool.or_eq_true,
      decide_eq_true_eq] at h ⊢
    omega

/-- Characters of the `\w`-runs of `cs` are characters of `cs`. -/
theorem mem_of_mem_wordRuns {cs : List Char} {r : List Char}
    (hr : r ∈ wordRuns cs) {c : Char} (hc : c ∈ r) : c ∈ cs := by
  suffices h : (∀ r ∈ (cs.foldr runStep ([], [])).1, ∀ c ∈ r, c ∈ cs)
      ∧ (∀ c ∈ (cs.foldr runStep ([], [])).2, c ∈ cs) by
    unfold wordRuns at hr
    split at hr
    · exact h.1 r hr c hc
    · rcases List.mem_cons.mp hr with rfl | hr
      · exact h.2 c hc
      · exact h.1 r hr c hc
  clear hr hc r
  induction cs with
  | nil => simp
  | cons a cs ih =>
    rw [List.foldr_cons]
    obtain ⟨ih1, ih2⟩ := ih
    unfold runStep
    split
    · refine ⟨fun r hr c hc => List.mem_cons_of_mem a (ih1 r hr c hc), ?_⟩
      intro c hc
      rcases List.mem_cons.mp hc with rfl | hc
      · exact List.mem_cons_self c cs
      · exact List.mem_cons_of_mem a (ih2 c hc)
    · refine ⟨?_, by simp⟩
      intro r hr c hc
      split at hr
      · exact List.mem_cons_of_mem a (ih1 r hr c hc)
      · rcases List.mem_cons.mp hr with rfl | hr
        · exact List.mem_cons_of_mem a (ih2 c hc)
        · exact List.mem_cons_of_mem a (ih1 r hr c hc)

/-- A word collected by the noun loop is the lowercased token of one of its
input pairs, and passed the length/stop-word guard. -/
theorem mem_collectNouns {w : List Char} :
    ∀ (ps : List (List Char × List Char)) (prev : Option (List Char)),
      w ∈ collectNouns prev ps →
      (∃ pr ∈ ps, w = pr.1) ∧ ¬(w.length < 3 ∨ w ∈ stopWordsL) := by
  intro ps
  induction ps with
  | nil => intro prev h; simp [collectNouns] at h
  | cons p rest ih =>
    intro prev h
    obtain ⟨word, original⟩ := p
    simp only [collectNouns] at h
    have keep : w ∈ word :: collectNouns (some word) rest →
        ¬(word.length < 3 ∨ word ∈ stopWordsL) →
        (∃ pr ∈ (word, original) :: rest, w = pr.1) ∧ ¬(w.length < 3 ∨ w ∈ stopWordsL) := by
      intro hmem hguard
      rcases List.mem_cons.mp hmem with rfl | hmem
      · exact ⟨⟨(w, original), List.mem_cons_self _ _, rfl⟩, hguard⟩
      · obtain ⟨⟨pr, hpr, hw⟩, hg⟩ := ih _ hmem
        exact ⟨⟨pr, List.mem_cons_of_mem _ hpr, hw⟩, hg⟩
    have skip : w ∈ collectNouns (some word) rest →
        (∃ pr ∈ (word, original) :: rest, w = pr.1) ∧ ¬(w.length < 3 ∨ w ∈ stopWordsL) := by
      intro hmem
      obtain ⟨⟨pr, hpr, hw⟩, hg⟩ := ih _ hmem
      exact ⟨⟨pr, List.mem_cons_of_mem _ hpr, hw⟩, hg⟩
    split_ifs at h with h0 h1 h2 h3
    · exact skip h
    · exact keep h h0
    · exact keep h h0
    · exact keep h h0
    · exact skip h

/-- Elements accumulated by the `Counter` key fold come from the accumulator
or the input list. -/
theorem mem_counterKeys_aux {x : List Char} :
    ∀ (ws acc : List (List Char)),
      x ∈ ws.foldl (fun ks w => if w ∈ ks then ks else ks ++ [w]) acc →
      x ∈ acc ∨ x ∈ ws := by
  intro ws
  induction ws with
  | nil => intro acc h; exact Or.inl h
  | cons w ws ih =>
    intro acc h
    rw [List.foldl_cons] at h
    rcases ih _ h with hacc | hws
    · split at hacc
      · exact Or.inl hacc
      · rcases List.mem_append.mp hacc with h1 | h1
        · exact Or.inl h1
        · simp only [List.mem_singleton] at h1
          exact Or.inr (h1 ▸ List.mem_cons_self _ _)
    · exact Or.inr (List.mem_cons_of_mem _ hws)

/-- Model of `Counter` keys are a sublist of the input's values. -/
theorem mem_counterKeys {x : List Char} {ws : List (List Char)}
    (h : x ∈ counterKeys ws) : x ∈ ws := by
  rcases mem_counterKeys_aux ws [] h with h1 | h1
  · simp at h1
  · exact h1

/-- The `Counter` key fold preserves distinctness of the accumulator. -/
theorem counterKeys_nodup_aux :
    ∀ (ws acc : List (List Char)), acc.Nodup →
      (ws.foldl (fun ks w => if w ∈ ks then ks else ks ++ [w]) acc).Nodup := by
  intro ws
  induction ws with
  | nil => intro acc h; exact h
  | cons w ws ih =>
    intro acc h
    rw [List.foldl_cons]
    apply ih
    split
    · exact h
    · rename_i hw
      simp [List.nodup_append, h, hw]

/-- Model of `Counter` keys are pairwise distinct. -/
theorem counterKeys_nodup (ws : List (List Char)) : (counterKeys ws).Nodup :=
  counterKeys_nodup_aux ws [] List.nodup_nil

/-- Model of `Counter.items()` have pairwise distinct keys. -/
theorem counterItems_pairwise (ws : List (List Char)) :
    (counterItems ws).Pairwise (fun a b => a.1 ≠ b.1) := by
  unfold counterItems
  exact List.Pairwise.map _ (fun a b hab => by simpa using hab) (counterKeys_nodup ws)

/-- Keys of `Counter.items()` come from the input list. -/
theorem counterItems_fst_mem {p : List Char × Nat} {ws : List (List Char)}
    (h : p ∈ counterItems ws) : p.1 ∈ ws := by
  unfold counterItems at h
  obtain ⟨k, hk, rfl⟩ := List.mem_map.mp h
  exact mem_counterKeys hk

/-- Everything returned by `most_common` is a key of the items. -/
theorem mem_mostCommonKeys {y : List Char} {k : Nat} {items : List (List Char × Nat)}
    (h : y ∈ mostCommonKeys k items) : ∃ p ∈ items, y = p.1 := by
  unfold mostCommonKeys at h
  obtain ⟨p, hp, rfl⟩ := List.mem_map.mp h
  exact ⟨p, (List.perm_insertionSort _ items).mem_iff.mp (List.mem_of_mem_take hp), rfl⟩

/-- Model of `most_common` of items with pairwise distinct keys returns pairwise
distinct words. -/
theorem mostCommonKeys_nodup {k : Nat} {items : List (List Char × Nat)}
    (h : items.Pairwise (fun a b => a.1 ≠ b.1)) : (mostCommonKeys k items).Nodup := by
  unfold mostCommonKeys
  have hs : (items.insertionSort (fun a b => b.2 ≤ a.2)).Pairwise (fun a b => a.1 ≠ b.1) :=
    ((List.perm_insertionSort (fun a b => b.2 ≤ a.2) items).pairwise_iff
      (fun h => h.symm)).mpr h
  have ht := hs.sublist (List.take_sublist k _)
  exact ht.map _ (fun a b hab => hab)

/-- Common shape of both result branches of `extract_keywords`: what the
returned strings are, how many, and their distinctness. -/
theorem keywordsOut_spec (base : List (List Char)) (k : Nat) :
    ((mostCommonKeys k (counterItems base)).map String.mk).length ≤ k
    ∧ ((mostCommonKeys k (counterItems base)).map String.mk).Nodup
    ∧ ∀ w ∈ (mostCommonKeys k (counterItems base)).map String.mk,
        ∃ t ∈ base, w = String.mk t := by
  refine ⟨?_, ?_, ?_⟩
  · simp only [List.length_map, mostCommonKeys, List.length_take]
    exact le_trans (Nat.min_le_left _ _) le_rfl
  · exact (mostCommonKeys_nodup (counterItems_pairwise base)).map
      (fun a b h => by injection h)
  · intro w hw
    obtain ⟨t, ht, rfl⟩ := List.mem_map.mp hw
    obtain ⟨p, hp, rfl⟩ := mem_mostCommonKeys ht
    exact ⟨p.1, counterItems_fst_mem hp, rfl⟩

/-- Every noun candidate is at least three characters long and consists of
lowercase ASCII letters. -/
theorem likelyNouns_props {text : String} {w : List Char} (hw : w ∈ likelyNouns text) :
    3 ≤ w.length ∧ ∀ c ∈ w, isLowerCh c = true ∧ isAsciiAlpha c = true := by
  unfold likelyNouns at hw
  obtain ⟨l, hl, hwl⟩ := List.mem_flatten.mp hw
  obtain ⟨s, _hs, rfl⟩ := List.mem_map.mp hl
  obtain ⟨⟨pr, hpr, rfl⟩, hguard⟩ := mem_collectNouns _ _ hwl
  obtain ⟨word, original⟩ := pr
  dsimp only at hguard ⊢
  rw [sentencePairs] at hpr
  have h1 : word ∈ findallAlpha (lowerStr s) := (List.of_mem_zip hpr).1
  rw [findallAlpha, List.mem_filter] at h1
  obtain ⟨hrun, halpha⟩ := h1
  have halpha' : ∀ c ∈ word, isAsciiAlpha c = true := fun c hc =>
    List.all_eq_true.mp halpha c hc
  constructor
  · push_neg at hguard
    omega
  · intro c hc
    have hcs : c ∈ lowerStr s := mem_of_mem_wordRuns hrun hc
    obtain ⟨c0, _hc0, rfl⟩ := List.mem_map.mp hcs
    exact ⟨isLowerCh_toLowerCh c0 (halpha' _ hc), halpha' _ hc⟩

/-- Every fallback token is at least three characters long and consists of
lowercase ASCII letters. -/
theorem fallbackWords_props {text : String} {w : List Char} (hw : w ∈ fallbackWords text) :
    3 ≤ w.length ∧ ∀ c ∈ w, isLowerCh c = true ∧ isAsciiAlpha c = true := by
  rw [fallbackWords, List.mem_filter] at hw
  obtain ⟨hw, _⟩ := hw
  rw [findallAlpha3, List.mem_filter] at hw
  obtain ⟨hrun, hcond⟩ := hw
  rw [Bool.and_eq_true, decide_eq_true_eq] at hcond
  obtain ⟨halpha, hlen⟩ := hcond
  have halpha' : ∀ c ∈ w, isAsciiAlpha c = true := fun c hc =>
    List.all_eq_true.mp halpha c hc
  refine ⟨hlen, fun c hc => ?_⟩
  have hcs : c ∈ lowerStr text.data := mem_of_mem_wordRuns hrun hc
  obtain ⟨c0, _hc0, rfl⟩ := List.mem_map.mp hcs
  exact ⟨isLowerCh_toLowerCh c0 (halpha' _ hc), halpha' _ hc⟩

/-! ### Claims C3 and C4 -/

/-- C3: for every text and `top_k`, `extract_keywords` returns at most `top_k`
pairwise-distinct words, each entirely lowercase alphabetic and at least three
characters long; and `extract_keywords "" 3 = []`. -/
theorem extract_keywords_shape :
    (∀ (text : String) (top_k : Nat),
      (extract_keywords text top_k).length ≤ top_k
      ∧ (extract_keywords text top_k).Nodup
      ∧ ∀ w ∈ extract_keywords text top_k,
          3 ≤ w.length ∧ ∀ c ∈ w.data, isLowerCh c = true ∧ isAsciiAlpha c = true)
    ∧ extract_keywords "" 3 = [] := by
  constructor
  · intro text top_k
    have key : ∀ base : List (List Char),
        (∀ w ∈ base, 3 ≤ w.length ∧ ∀ c ∈ w, isLowerCh c = true ∧ isAsciiAlpha c = true) →
        ((mostCommonKeys top_k (counterItems base)).map String.mk).length ≤ top_k
        ∧ ((mostCommonKeys top_k (counterItems base)).map String.mk).Nodup
        ∧ ∀ w ∈ (mostCommonKeys top_k (counterItems base)).map String.mk,
            3 ≤ w.length ∧ ∀ c ∈ w.data, isLowerCh c = true ∧ isAsciiAlpha c = true := by
      intro base hbase
      obtain ⟨hlen, hnd, hmem⟩ := keywordsOut_spec base top_k
      refine ⟨hlen, hnd, ?_⟩
      intro w hw
      obtain ⟨t, ht, rfl⟩ := hmem w hw
      exact hbase t ht
    simp only [extract_keywords]
    by_cases hl : (likelyNouns text).isEmpty = true
    · rw [if_pos hl]
      exact key _ (fun w hw => fallbackWords_props hw)
    · rw [if_neg hl]
      exact key _ (fun w hw => likelyNouns_props hw)
  · rfl

/-- Witness for C3: on a concrete text the returned keywords are bounded,
distinct, and well-formed; on the empty text the result is empty. -/
theorem extract_keywords_shape_witness :
    extract_keywords "" 3 = []
    ∧ (extract_keywords "Paris is pretty. Paris shines" 3).length ≤ 3
    ∧ ("paris" ∈ extract_keywords "Paris is pretty. Paris shines" 3
        ∧ 3 ≤ ("paris" : String).length) :=
  ⟨extract_keywords_shape.2,
   (extract_keywords_shape.1 "Paris is pretty. Paris shines" 3).1,
   by decide,
   ((extract_keywords_shape.1 "Paris is pretty. Paris shines" 3).2.2 "paris" (by decide)).1⟩

/-- C4: whenever the noun heuristic yields no candidate at all, the extractor
coincides with the spec's fallback ranking (pure frequency over all length-≥3
non-stop-word alphabetic tokens, no noun heuristic), and if that fallback set
is empty too, the result is the empty list. -/
theorem extract_keywords_fallback :
    ∀ (text : String) (top_k : Nat), likelyNouns text = [] →
      extract_keywords text top_k = fallbackKeywordsSpec text top_k
      ∧ (fallbackWords text = [] → extract_keywords text top_k = []) := by
  intro text top_k h
  have hempty : (likelyNouns text).isEmpty = true := by rw [h]; rfl
  constructor
  · simp only [extract_keywords, fallbackKeywordsSpec]
    rw [if_pos hempty]
  · intro h2
    simp only [extract_keywords]
    rw [if_pos hempty, h2]
    simp [mostCommonKeys, counterItems, counterKeys]

/-- Witness for C4: a stop-word-only text has no noun candidate and an empty
fallback set, so extraction returns the empty list (and agrees with the
spec-side fallback ranking). -/
theorem extract_keywords_fallback_witness :
    likelyNouns "the and or for" = []
    ∧ fallbackWords "the and or for" = []
    ∧ extract_keywords "the and or for" 3 = fallbackKeywordsSpec "the and or for" 3
    ∧ extract_keywords "the and or for" 3 = [] :=
  ⟨by decide, by decide,
   (extract_keywords_fallback "the and or for" 3 (by decide)).1,
   (extract_keywords_fallback "the and or for" 3 (by decide)).2 (by decide)⟩

/-! ### Lemmas about the confidence scorer -/

/-- Round-half-to-even is the identity on integers. -/
theorem roundHalfEven_intCast (m : ℤ) : roundHalfEven (m : ℚ) = m := by
  unfold roundHalfEven ratFloor
  simp [Rat.num_intCast, Rat.den_intCast]

/-- Model of `round(q, 2)` is the identity on multiples of `1/20`. -/
theorem round2_div20 (n : ℤ) : round2 ((n : ℚ) / 20) = (n : ℚ) / 20 := by
  unfold round2
  have h : ((n : ℚ) / 20) * 100 = ((5 * n : ℤ) : ℚ) := by push_cast; ring
  rw [h, roundHalfEven_intCast]
  push_cast; ring

/-- Model of `round(0.5, 2) = 0.5`. -/
theorem round2_half : round2 0.5 = 0.5 := by
  have h : (0.5 : ℚ) = ((10 : ℤ) : ℚ) / 20 := by norm_num
  rw [h, round2_div20]

/-- Clamping is the identity inside `[0, 1]`. -/
theorem clamp_eq {x : ℚ} (h0 : 0 ≤ x) (h1 : x ≤ 1) : pyMax 0 (pyMin 1 x) = x := by
  unfold pyMax pyMin
  split_ifs <;> linarith

/-- Clamping to `[0, 1]` is monotone. -/
theorem clamp_mono {x y : ℚ} (h : x ≤ y) : pyMax 0 (pyMin 1 x) ≤ pyMax 0 (pyMin 1 y) := by
  unfold pyMax pyMin
  split_ifs <;> linarith

/-- The text-length component is one of its three brackets, as a multiple of
`1/20` between `2/20` and `5/20`. -/
theorem lenScore_div20 (text : String) :
    ∃ n : ℤ, lenScore text = (n : ℚ) / 20 ∧ 2 ≤ n ∧ n ≤ 5 := by
  unfold lenScore
  split_ifs
  · exact ⟨5, by norm_num, by norm_num, by norm_num⟩
  · exact ⟨3, by norm_num, by norm_num, by norm_num⟩
  · exact ⟨2, by norm_num, by norm_num, by norm_num⟩

/-- A 0-or-0.25 component as a multiple of `1/20`. -/
theorem quarter_div20 {a : ℚ} (ha : a = 0 ∨ a = 0.25) :
    ∃ k : ℤ, a = (k : ℚ) / 20 ∧ 0 ≤ k ∧ k ≤ 5 := by
  rcases ha with rfl | rfl
  · exact ⟨0, by norm_num, le_refl 0, by norm_num⟩
  · exact ⟨5, by norm_num, by norm_num, le_refl 5⟩

/-- The summary component only ever contributes 0 or 0.25. -/
theorem summaryScore_ok_cases {r : PyVal} {a : ℚ} (h : summaryScore r = .ok a) :
    a = 0 ∨ a = 0.25 := by
  unfold summaryScore at h
  cases r with
  | dict es =>
    simp only [pyGet] at h
    split_ifs at h with ht
    · simp only [pyIndex] at h
      split at h
      · exact absurd h (by simp)
      · split_ifs at h <;> simp only [Except.ok.injEq] at h
        · exact Or.inr h.symm
        · exact Or.inl h.symm
    · simp only [Except.ok.injEq] at h
      exact Or.inl h.symm
  | none => simp [pyGet] at h
  | bool b => simp [pyGet] at h
  | int n => simp [pyGet] at h
  | str s => simp [pyGet] at h
  | list xs => simp [pyGet] at h

/-- The topics component only ever contributes 0 or 0.25. -/
theorem topicsScore_ok_cases {r : PyVal} {a : ℚ} (h : topicsScore r = .ok a) :
    a = 0 ∨ a = 0.25 := by
  unfold topicsScore at h
  split at h
  · exact absurd h (by simp)
  · split_ifs at h <;> simp only [Except.ok.injEq] at h
    · exact Or.inr h.symm
    · exact Or.inl h.symm

/-- The keywords component only ever contributes 0 or 0.25. -/
theorem keywordsScore_cases (ks : List String) :
    keywordsScore ks = 0 ∨ keywordsScore ks = 0.25 := by
  unfold keywordsScore
  split_ifs <;> simp

/-- A successful scorer body yields a clamped score that is a multiple of
`1/20` between `2/20` and `1`. -/
theorem scoreBody_ok_div20 {t : String} {r : PyVal} {ks : List String} {s : ℚ}
    (h : scoreBody t r ks = .ok s) :
    ∃ n : ℤ, s = (n : ℚ) / 20 ∧ 2 ≤ n ∧ n ≤ 20 := by
  unfold scoreBody at h
  cases hs2 : summaryScore r with
  | error e => rw [hs2] at h; exact absurd h (by simp)
  | ok s2 =>
    rw [hs2] at h
    cases hs3 : topicsScore r with
    | error e => rw [hs3] at h; exact absurd h (by simp)
    | ok s3 =>
      rw [hs3] at h
      simp only [Except.ok.injEq] at h
      obtain ⟨n1, hl, hl2, hl5⟩ := lenScore_div20 t
      obtain ⟨k2, h2, h20, h25⟩ := quarter_div20 (summaryScore_ok_cases hs2)
      obtain ⟨k3, h3, h30, h35⟩ := quarter_div20 (topicsScore_ok_cases hs3)
      obtain ⟨k4, h4, h40, h45⟩ := quarter_div20 (keywordsScore_cases ks)
      refine ⟨n1 + k2 + k3 + k4, ?_, by omega, by omega⟩
      have hsum : lenScore t + s2 + s3 + keywordsScore ks
          = ((n1 + k2 + k3 + k4 : ℤ) : ℚ) / 20 := by
        rw [hl, h2, h3, h4]; push_cast; ring
      have hlo : (0 : ℚ) ≤ ((n1 + k2 + k3 + k4 : ℤ) : ℚ) / 20 := by
        have : (0 : ℚ) ≤ ((n1 + k2 + k3 + k4 : ℤ) : ℚ) := by
          exact_mod_cast (by omega : (0 : ℤ) ≤ n1 + k2 + k3 + k4)
        linarith
      have hhi : ((n1 + k2 + k3 + k4 : ℤ) : ℚ) / 20 ≤ 1 := by
        have : ((n1 + k2 + k3 + k4 : ℤ) : ℚ) ≤ 20 := by
          exact_mod_cast (by omega : (n1 + k2 + k3 + k4 : ℤ) ≤ 20)
        linarith
      rw [← h, hsum, clamp_eq hlo hhi]

/-- On a dict, the summary component succeeds and equals 0.25 exactly when
`summaryCond` holds. -/
theorem summaryScore_dict (es : List (String × PyVal)) :
    summaryScore (.dict es) = .ok (if summaryCond (.dict es) then 0.25 else 0) := by
  unfold summaryScore summaryCond pyGet pyIndex
  cases hlk : es.lookup "summary" with
  | none => simp [hlk, PyVal.truthy]
  | some x =>
    simp only [hlk, Option.getD_some]
    by_cases ht : x.truthy <;> simp [ht]

/-- The topics component under a successful topics check. -/
theorem topicsScore_of_check {r : PyVal} {b : Bool} (h : topicsCheck r = .ok b) :
    topicsScore r = .ok (if b then 0.25 else 0) := by
  unfold topicsScore
  rw [h]

/-- The keywords component equals 0.25 exactly on a non-empty keyword list. -/
theorem keywordsScore_eq (ks : List String) :
    keywordsScore ks = if ks = [] then 0 else 0.25 := by
  unfold keywordsScore
  cases ks <;> simp

/-- Monotonicity of a 0-or-0.25 contribution in its boolean condition. -/
theorem ite_quarter_mono {b1 b2 : Bool} (h : b1 = true → b2 = true) :
    (if b1 then (0.25 : ℚ) else 0) ≤ (if b2 then (0.25 : ℚ) else 0) := by
  cases b1 <;> cases b2 <;> simp_all
  norm_num

/-! ### Claims C5 and C6 -/

/-- C5: the confidence score always lies in `(0, 1]` — the text-length
baseline keeps it strictly positive — and it is monotonically non-decreasing
in the four conditions: with both `llm_result`s dicts and both topics checks
non-faulting, improving the text-length bracket and turning any of the
summary/topics/keywords conditions from unsatisfied to satisfied (leaving the
others fixed or improved) never decreases the score. -/
theorem confidence_score_range_monotone :
    (∀ (text : String) (llm_result : PyVal) (keywords : List String),
      0 < calculate_confidence_score text llm_result keywords
      ∧ calculate_confidence_score text llm_result keywords ≤ 1)
    ∧ (∀ (t1 t2 : String) (r1 r2 : PyVal) (k1 k2 : List String) (b1 b2 : Bool),
      r1.isDict = true → r2.isDict = true →
      topicsCheck r1 = .ok b1 → topicsCheck r2 = .ok b2 →
      lenScore t1 ≤ lenScore t2 →
      (summaryCond r1 = true → summaryCond r2 = true) →
      (b1 = true → b2 = true) →
      (k1 ≠ [] → k2 ≠ []) →
      calculate_confidence_score t1 r1 k1 ≤ calculate_confidence_score t2 r2 k2) := by
  constructor
  · intro t r ks
    cases hsb : scoreBody t r ks with
    | error e =>
      have hcalc : calculate_confidence_score t r ks = round2 0.5 := by
        unfold calculate_confidence_score
        rw [hsb]
      rw [hcalc, round2_half]
      norm_num
    | ok s =>
      obtain ⟨n, rfl, h2, h20⟩ := scoreBody_ok_div20 hsb
      have hcalc : calculate_confidence_score t r ks = round2 ((n : ℚ) / 20) := by
        unfold calculate_confidence_score
        rw [hsb]
      rw [hcalc, round2_div20]
      constructor
      · have hq : (2 : ℚ) ≤ (n : ℚ) := by exact_mod_cast h2
        linarith
      · have hq : (n : ℚ) ≤ 20 := by exact_mod_cast h20
        linarith
  · intro t1 t2 r1 r2 k1 k2 b1 b2 hd1 hd2 htc1 htc2 hlen hsum hb hk
    cases r1 with
    | none => simp [PyVal.isDict] at hd1
    | bool b => simp [PyVal.isDict] at hd1
    | int n => simp [PyVal.isDict] at hd1
    | str s => simp [PyVal.isDict] at hd1
    | list xs => simp [PyVal.isDict] at hd1
    | dict es1 =>
    cases r2 with
    | none => simp [PyVal.isDict] at hd2
    | bool b => simp [PyVal.isDict] at hd2
    | int n => simp [PyVal.isDict] at hd2
    | str s => simp [PyVal.isDict] at hd2
    | list xs => simp [PyVal.isDict] at hd2
    | dict es2 =>
    have hsb1 : scoreBody t1 (.dict es1) k1
        = .ok (pyMax 0 (pyMin 1 (lenScore t1
            + (if summaryCond (.dict es1) then (0.25 : ℚ) else 0)
            + (if b1 then (0.25 : ℚ) else 0) + keywordsScore k1))) := by
      unfold scoreBody
      rw [summaryScore_dict es1, topicsScore_of_check htc1]
    have hsb2 : scoreBody t2 (.dict es2) k2
        = .ok (pyMax 0 (pyMin 1 (lenScore t2
            + (if summaryCond (.dict es2) then (0.25 : ℚ) else 0)
            + (if b2 then (0.25 : ℚ) else 0) + keywordsScore k2))) := by
      unfold scoreBody
      rw [summaryScore_dict es2, topicsScore_of_check htc2]
    have ha := ite_quarter_mono hsum
    have hbq := ite_quarter_mono hb
    have hkq : keywordsScore k1 ≤ keywordsScore k2 := by
      rw [keywordsScore_eq, keywordsScore_eq]
      split_ifs with h1 h2 h2
      · exact le_refl 0
      · norm_num
      · exact absurd h2 (hk h1)
      · exact le_refl _
    have hle : pyMax 0 (pyMin 1 (lenScore t1
            + (if summaryCond (.dict es1) then (0.25 : ℚ) else 0)
            + (if b1 then (0.25 : ℚ) else 0) + keywordsScore k1))
        ≤ pyMax 0 (pyMin 1 (lenScore t2
            + (if summaryCond (.dict es2) then (0.25 : ℚ) else 0)
            + (if b2 then (0.25 : ℚ) else 0) + keywordsScore k2)) :=
      clamp_mono (by linarith)
    obtain ⟨n1, hn1, _, _⟩ := scoreBody_ok_div20 hsb1
    obtain ⟨n2, hn2, _, _⟩ := scoreBody_ok_div20 hsb2
    have hc1 : calculate_confidence_score t1 (.dict es1) k1 = round2 ((n1 : ℚ) / 20) := by
      unfold calculate_confidence_score
      rw [hsb1, hn1]
    have hc2 : calculate_confidence_score t2 (.dict es2) k2 = round2 ((n2 : ℚ) / 20) := by
      unfold calculate_confidence_score
      rw [hsb2, hn2]
    rw [hc1, hc2, round2_div20, round2_div20]
    rw [hn1, hn2] at hle
    exact hle

/-- Witness for C5: concrete range instance, and a concrete monotone pair —
an empty LLM result against one with topics and a long summary plus
keywords. -/
theorem confidence_score_range_monotone_witness :
    (0 < calculate_confidence_score "hello" (.dict []) []
      ∧ calculate_confidence_score "hello" (.dict []) [] ≤ 1)
    ∧ topicsCheck (.dict []) = .ok false
    ∧ topicsCheck (.dict [("topics", .list [.str "ai"]),
        ("summary", .str "a sufficiently long summary")]) = .ok true
    ∧ calculate_confidence_score "hello" (.dict []) []
      ≤ calculate_confidence_score "hello"
          (.dict [("topics", .list [.str "ai"]),
            ("summary", .str "a sufficiently long summary")]) ["paris"] :=
  ⟨confidence_score_range_monotone.1 "hello" (.dict []) [],
   rfl, rfl,
   confidence_score_range_monotone.2 "hello" "hello" (.dict [])
     (.dict [("topics", .list [.str "ai"]), ("summary", .str "a sufficiently long summary")])
     [] ["paris"] false true rfl rfl rfl rfl (le_refl _)
     (by decide) (by decide) (by decide)⟩

/-- C6: the scorer never propagates an internal exception — whenever the
`try` body faults (in particular whenever `llm_result` is not a mapping, so
`.get` raises `AttributeError`), `_calculate_confidence_score` returns
normally with exactly 0.5.  (The Lean embedding is total by construction,
mirroring the scorer's catch-all `except`.) -/
theorem confidence_score_fault_fallback :
    ∀ (text : String) (llm_result : PyVal) (keywords : List String),
      (∀ e, scoreBody text llm_result keywords = .error e →
        calculate_confidence_score text llm_result keywords = 0.5)
      ∧ (llm_result.isDict = false →
        calculate_confidence_score text llm_result keywords = 0.5) := by
  intro t r ks
  constructor
  · intro e he
    unfold calculate_confidence_score
    rw [he, round2_half]
  · intro hd
    have herr : ∃ e, scoreBody t r ks = .error e := by
      cases r with
      | dict es => exact absurd hd (by simp [PyVal.isDict])
      | none => exact ⟨.attributeError "object has no attribute get", rfl⟩
      | bool b => exact ⟨.attributeError "object has no attribute get", rfl⟩
      | int n => exact ⟨.attributeError "object has no attribute get", rfl⟩
      | str s => exact ⟨.attributeError "object has no attribute get", rfl⟩
      | list xs => exact ⟨.attributeError "object has no attribute get", rfl⟩
    obtain ⟨e, he⟩ := herr
    unfold calculate_confidence_score
    rw [he, round2_half]

/-- Witness for C6: a list-valued `llm_result` is not a mapping; the scorer
returns exactly 0.5. -/
theorem confidence_score_fault_fallback_witness :
    PyVal.isDict (.list []) = false
    ∧ calculate_confidence_score "some text" (.list []) ["k"] = 0.5 :=
  ⟨rfl, (confidence_score_fault_fallback "some text" (.list []) ["k"]).2 rfl⟩

/-! ### Lemmas about `analyze_text` -/

/-- Pydantic validation passes the `keywords` argument through unchanged. -/
theorem mkTextAnalysisCreate_keywords {text : String} {lr : PyVal} {ks : List String}
    {conf : ℚ} {d : TextAnalysisCreateRec}
    (h : mkTextAnalysisCreate text lr ks conf = .ok d) : d.keywords = ks := by
  unfold mkTextAnalysisCreate at h
  repeat' split at h
  all_goals try exact Except.noConfusion h
  injection h with h2
  rw [← h2]

/-- The DAO copies `keywords` from the submitted record into the row. -/
theorem create_analysis_keywords {c : TextAnalysisCreateRec → Except PyErr (Nat × Nat)}
    {d : TextAnalysisCreateRec} {row : TextAnalysisRow}
    (h : create_analysis c d = .ok row) : row.keywords = d.keywords := by
  unfold create_analysis at h
  split at h
  · exact Except.noConfusion h
  · injection h with h2
    rw [← h2]

/-- A successful `try` body returns a response whose keywords are
`extract_keywords` of the original input text. -/
theorem analyzeTryBody_ok_keywords
    {llm : String → String → Except PyErr String}
    {jp : String → Except PyErr PyVal}
    {c : TextAnalysisCreateRec → Except PyErr (Nat × Nat)}
    {text : String} {r : TextAnalysisResponseRec} {stored : List TextAnalysisCreateRec}
    (h : analyzeTryBody llm jp c text = (.ok r, stored)) :
    r.keywords = extract_keywords text 3 := by
  unfold analyzeTryBody at h
  cases hl : llm (text_analysis_prompt_formatted text) analysis_system_prompt with
  | error e => rw [hl] at h; exact absurd h (by simp)
  | ok response =>
    rw [hl] at h
    simp only at h
    cases hj : jp response with
    | error e => rw [hj] at h; exact absurd h (by simp)
    | ok lr =>
      rw [hj] at h
      simp only at h
      cases hmk : mkTextAnalysisCreate text lr (extract_keywords text 3)
          (calculate_confidence_score text lr (extract_keywords text 3)) with
      | error e => rw [hmk] at h; exact absurd h (by simp)
      | ok d =>
        rw [hmk] at h
        simp only at h
        cases hca : create_analysis c d with
        | error e => rw [hca] at h; exact absurd h (by simp)
        | ok row =>
          rw [hca] at h
          simp only [Prod.mk.injEq, Except.ok.injEq] at h
          obtain ⟨h1, _⟩ := h
          rw [← h1]
          show row.keywords = extract_keywords text 3
          rw [create_analysis_keywords hca, mkTextAnalysisCreate_keywords hmk]

/-- A successful `analyze_text` returns keywords computed from the original
input text. -/
theorem analyze_text_ok_keywords
    {llm : String → String → Except PyErr String}
    {jp : String → Except PyErr PyVal}
    {c : TextAnalysisCreateRec → Except PyErr (Nat × Nat)}
    {text : String} {r : TextAnalysisResponseRec}
    (h : (analyze_text llm jp c text).1 = .ok r) :
    r.keywords = extract_keywords text 3 := by
  unfold analyze_text at h
  split_ifs at h with hb
  · split at h
    · rename_i resp stored heq
      have h2 : resp = r := Except.ok.inj h
      exact h2 ▸ analyzeTryBody_ok_keywords heq
    · exact Except.noConfusion h

/-! ### Claims C7 and C8 -/

/-- C7: on empty or whitespace-only input, `analyze_text` raises the
validation `ValueError` (not the generic "Analysis failed" error), makes zero
LLM calls, and persists nothing — for every behaviour of the collaborators. -/
theorem analyze_text_rejects_blank :
    ∀ (llm : String → String → Except PyErr String)
      (jsonParse : String → Except PyErr PyVal)
      (commit : TextAnalysisCreateRec → Except PyErr (Nat × Nat))
      (text : String),
      (text = "" ∨ pyStrip text = "") →
      analyze_text llm jsonParse commit text
        = (.error (.valueError "Text cannot be empty"), 0, []) := by
  intro llm jp commit text h
  unfold analyze_text
  rw [if_pos h]

/-- Witness for C7: the whitespace-only text `"   "` is rejected before any
collaborator is touched. -/
theorem analyze_text_rejects_blank_witness :
    (("   " : String) = "" ∨ pyStrip "   " = "")
    ∧ analyze_text (fun _ _ => .ok "") (fun _ => .ok .none) (fun _ => .ok (0, 0)) "   "
        = (.error (.valueError "Text cannot be empty"), 0, []) :=
  ⟨Or.inr (by decide),
   analyze_text_rejects_blank _ _ _ "   " (Or.inr (by decide))⟩

/-- C8: the keywords of a successful analysis are a function of the input
text alone — two runs on the same text with arbitrary (different) LLM,
JSON-parsing and storage behaviour produce the same keywords, namely
`extract_keywords` of the original text (never of the LLM's summary). -/
theorem keywords_depend_only_on_text :
    ∀ (llm1 llm2 : String → String → Except PyErr String)
      (jp1 jp2 : String → Except PyErr PyVal)
      (c1 c2 : TextAnalysisCreateRec → Except PyErr (Nat × Nat))
      (text : String) (r1 r2 : TextAnalysisResponseRec),
      (analyze_text llm1 jp1 c1 text).1 = .ok r1 →
      (analyze_text llm2 jp2 c2 text).1 = .ok r2 →
      r1.keywords = extract_keywords text 3 ∧ r2.keywords = r1.keywords := by
  intro llm1 llm2 jp1 jp2 c1 c2 text r1 r2 h1 h2
  have k1 := analyze_text_ok_keywords h1
  have k2 := analyze_text_ok_keywords h2
  exact ⟨k1, k2.trans k1.symm⟩

/-- Witness for C8: two runs on the same text whose LLM responses (and hence
summaries) differ; the keywords agree and equal `extract_keywords` of the
original text. -/
theorem keywords_depend_only_on_text_witness :
    (analyze_text (fun _ _ => .ok "resp1") (fun s => .ok (.dict [("summary", .str s)]))
        (fun _ => .ok (1, 2)) "Paris is pretty. Paris shines").1
      = .ok { id := 1, summary := "resp1", title := Option.none, topics := [],
              sentiment := "neutral", keywords := ["paris", "pretty", "shines"],
              confidence_score :=
                calculate_confidence_score "Paris is pretty. Paris shines"
                  (.dict [("summary", .str "resp1")])
                  (extract_keywords "Paris is pretty. Paris shines" 3),
              created_at := 2 }
    ∧ (analyze_text (fun _ _ => .ok "resp2") (fun s => .ok (.dict [("summary", .str s)]))
        (fun _ => .ok (1, 2)) "Paris is pretty. Paris shines").1
      = .ok { id := 1, summary := "resp2", title := Option.none, topics := [],
              sentiment := "neutral", keywords := ["paris", "pretty", "shines"],
              confidence_score :=
                calculate_confidence_score "Paris is pretty. Paris shines"
                  (.dict [("summary", .str "resp2")])
                  (extract_keywords "Paris is pretty. Paris shines" 3),
              created_at := 2 }
    ∧ ["paris", "pretty", "shines"] = extract_keywords "Paris is pretty. Paris shines" 3 :=
  ⟨rfl, rfl,
   (keywords_depend_only_on_text
     (fun _ _ => .ok "resp1") (fun _ _ => .ok "resp2")
     (fun s => .ok (.dict [("summary", .str s)])) (fun s => .ok (.dict [("summary", .str s)]))
     (fun _ => .ok (1, 2)) (fun _ => .ok (1, 2))
     "Paris is pretty. Paris shines" _ _ rfl rfl).1.symm⟩

/-! ### Lemmas about the batch endpoints -/

/-- Updating a batch id rewrites exactly that entry. -/
theorem updateBatch_self {m : BatchMap} {batch_id : String} {e : BatchEntry}
    (f : BatchEntry → BatchEntry) (hm : m batch_id = some e) :
    updateBatch m batch_id f batch_id = some (f e) := by
  unfold updateBatch
  rw [if_pos rfl, hm]
  rfl

/-- Updating a batch id leaves every other entry unchanged. -/
theorem updateBatch_other {m : BatchMap} {batch_id k : String}
    (f : BatchEntry → BatchEntry) (hk : k ≠ batch_id) :
    updateBatch m batch_id f k = m k := by
  unfold updateBatch
  rw [if_neg hk]

/-- A truncated per-item failure string is never the blank-text marker
`"Empty text"` (it is strictly longer). -/
theorem failure_string_ne (t msg : String) :
    ("Text '" ++ t.take 50 ++ "...': " ++ msg) ≠ "Empty text" := by
  intro h
  have hlen := congrArg String.length h
  simp only [String.length_append] at hlen
  have h1 : ("Text '" : String).length = 6 := rfl
  have h2 : ("...': " : String).length = 6 := rfl
  have h3 : ("Empty text" : String).length = 10 := rfl
  omega

/-- Master invariant of the per-text batch loop: starting from any map with
an entry at `batch_id`, the loop terminates with that entry `completed`, its
`total` and `created_at` untouched, one success-or-failure recorded per input
text, the `"Empty text"` marker appearing once per blank text, and every
other batch id untouched. -/
theorem processBatchGo_spec (analyze : String → Except AnalyzeErr TextAnalysisResponseRec)
    (batch_id : String) :
    ∀ (ts : List String) (m : BatchMap) (e : BatchEntry), m batch_id = some e →
      ∃ e', processBatchGo analyze batch_id ts m batch_id = some e'
        ∧ e'.status = "completed"
        ∧ e'.total = e.total
        ∧ e'.created_at = e.created_at
        ∧ e'.successful.length + e'.failed.length
            = e.successful.length + e.failed.length + ts.length
        ∧ e'.failed.count "Empty text"
            = e.failed.count "Empty text" + (ts.filter (fun t => pyStrip t = "")).length
        ∧ ∀ k, k ≠ batch_id → processBatchGo analyze batch_id ts m k = m k := by
  intro ts
  induction ts with
  | nil =>
    intro m e hm
    refine ⟨{ e with status := "completed" }, ?_, rfl, rfl, rfl, by simp, by simp, ?_⟩
    · exact updateBatch_self _ hm
    · intro k hk
      exact updateBatch_other _ hk
  | cons t ts ih =>
    intro m e hm
    simp only [processBatchGo]
    by_cases hb : pyStrip t = ""
    · rw [if_pos hb]
      obtain ⟨e', h1, h2, h3, h4, h5, h6, h7⟩ :=
        ih _ _ (updateBatch_self (fun e => { e with failed := e.failed ++ ["Empty text"] }) hm)
      simp at h5 h6
      refine ⟨e', h1, h2, h3, h4, ?_, ?_, ?_⟩
      · simp only [List.length_cons]
        omega
      · simp [hb]
        omega
      · intro k hk
        exact (h7 k hk).trans (updateBatch_other _ hk)
    · rw [if_neg hb]
      cases ha : analyze t with
      | ok result =>
        obtain ⟨e', h1, h2, h3, h4, h5, h6, h7⟩ :=
          ih _ _ (updateBatch_self
            (fun e => { e with successful := e.successful ++ [result] }) hm)
        simp at h5 h6
        refine ⟨e', h1, h2, h3, h4, ?_, ?_, ?_⟩
        · simp only [List.length_cons]
          omega
        · simp [List.filter_cons, hb]
          omega
        · intro k hk
          exact (h7 k hk).trans (updateBatch_other _ hk)
      | error err =>
        obtain ⟨e', h1, h2, h3, h4, h5, h6, h7⟩ :=
          ih _ _ (updateBatch_self
            (fun e => { e with failed := e.failed
              ++ ["Text '" ++ t.take 50 ++ "...': " ++ err.message] }) hm)
        have hne : ¬("Empty text" = "Text '" ++ t.take 50 ++ "...': " ++ err.message) :=
          fun hc => failure_string_ne t err.message hc.symm
        simp [hne] at h5 h6
        refine ⟨e', h1, h2, h3, h4, ?_, ?_, ?_⟩
        · simp only [List.length_cons]
          omega
        · simp [List.filter_cons, hb]
          omega
        · intro k hk
          exact (h7 k hk).trans (updateBatch_other _ hk)

/-! ### Claims C9 and C10 -/

/-- C9: after the background pass has attempted every submitted text, the
batch is unconditionally `"completed"`, `success_count + failure_count`
equals `total` equals the number of submitted texts (so one text's failure
never prevents later texts from being attempted), and the failure string
`"Empty text"` appears exactly once per blank submitted text — for every
behaviour of the LLM, JSON-parsing and storage collaborators. -/
theorem batch_completion_accounting :
    ∀ (llm : String → String → Except PyErr String)
      (jsonParse : String → Except PyErr PyVal)
      (commit : TextAnalysisCreateRec → Except PyErr (Nat × Nat))
      (batch_id : String) (texts : List String) (now : Nat) (m : BatchMap),
      ∃ e', submitAndProcess llm jsonParse commit batch_id texts now m batch_id = some e'
        ∧ e'.status = "completed"
        ∧ e'.total = texts.length
        ∧ e'.successful.length + e'.failed.length = texts.length
        ∧ e'.successful.length + e'.failed.length = e'.total
        ∧ e'.failed.count "Empty text"
            = (texts.filter (fun t => pyStrip t = "")).length := by
  intro llm jp commit batch_id texts now m
  have hm : batch_analyze_texts batch_id texts now m batch_id
      = some { status := "processing", successful := [], failed := [],
               total := texts.length, created_at := now } := by
    unfold batch_analyze_texts
    rw [if_pos rfl]
  obtain ⟨e', h1, h2, h3, h4, h5, h6, _⟩ :=
    processBatchGo_spec (fun t => (analyze_text llm jp commit t).1) batch_id texts _ _ hm
  refine ⟨e', h1, h2, h3, ?_, ?_, ?_⟩
  · simpa using h5
  · rw [h3]
    simpa using h5
  · simpa using h6

/-- C10: the background pass mutates only the entry it was started for — its
`total` stays the submitted list's length and its `created_at` stays the
submission timestamp — and the entry of every other batch id is left exactly
as it was. -/
theorem batch_frame :
    ∀ (llm : String → String → Except PyErr String)
      (jsonParse : String → Except PyErr PyVal)
      (commit : TextAnalysisCreateRec → Except PyErr (Nat × Nat))
      (batch_id : String) (texts : List String) (now : Nat) (m : BatchMap) (k : String),
      (k ≠ batch_id → submitAndProcess llm jsonParse commit batch_id texts now m k = m k)
      ∧ (∃ e', submitAndProcess llm jsonParse commit batch_id texts now m batch_id = some e'
          ∧ e'.total = texts.length
          ∧ e'.created_at = now
          ∧ e'.status = "completed") := by
  intro llm jp commit batch_id texts now m k
  have hm : batch_analyze_texts batch_id texts now m batch_id
      = some { status := "processing", successful := [], failed := [],
               total := texts.length, created_at := now } := by
    unfold batch_analyze_texts
    rw [if_pos rfl]
  obtain ⟨e', h1, h2, h3, h4, _, _, h7⟩ :=
    processBatchGo_spec (fun t => (analyze_text llm jp commit t).1) batch_id texts _ _ hm
  constructor
  · intro hk
    have := h7 k hk
    unfold submitAndProcess process_batch
    rw [this]
    unfold batch_analyze_texts
    rw [if_neg hk]
  · exact ⟨e', h1, h3, h4, h2⟩

/-- Witness for C10: with one batch `"b1"` submitted over an empty store, an
unrelated id `"b2"` is still absent afterwards, and `"b1"`'s entry keeps its
submission-time `total` and `created_at`. -/
theorem batch_frame_witness :
    ("b2" : String) ≠ "b1"
    ∧ submitAndProcess (fun _ _ => .ok "") (fun _ => .ok .none) (fun _ => .ok (0, 0))
        "b1" ["one text"] 5 (fun _ => Option.none) "b2" = Option.none
    ∧ (∃ e', submitAndProcess (fun _ _ => .ok "") (fun _ => .ok .none) (fun _ => .ok (0, 0))
        "b1" ["one text"] 5 (fun _ => Option.none) "b1" = some e'
        ∧ e'.total = (["one text"] : List String).length
        ∧ e'.created_at = 5
        ∧ e'.status = "completed") :=
  ⟨by decide,
   (batch_frame (fun _ _ => .ok "") (fun _ => .ok .none) (fun _ => .ok (0, 0))
      "b1" ["one text"] 5 (fun _ => Option.none) "b2").1 (by decide),
   (batch_frame (fun _ _ => .ok "") (fun _ => .ok .none) (fun _ => .ok (0, 0))
      "b1" ["one text"] 5 (fun _ => Option.none) "b2").2⟩
